import Mathlib

/-!
Verification of the NPI proxy service (`src/app/main.py`) against its
natural-language specification.

The repository is a single FastAPI endpoint `GET /check-npi?number=...`:
it rate-limits the client, validates `number`, issues one HTTP GET to the
NPPES registry, and maps the upstream JSON document to a small result
shape.  We embed the handler shallowly:

* parsed JSON documents are values of the inductive type `JValue`;
* the dynamic (Python) operations the handler performs on such a value —
  `dict.get`, subscripting, truthiness, `or`, `str.upper` — are embedded
  as functions into `Except PyError _`, since on type-mismatched values
  they raise Python exceptions;
* the endpoint body `check_npi` is embedded as a pure function of the
  rate-limiter decision, the raw `number` string and the upstream reply,
  returning the HTTP response, the log lines emitted, and whether the
  upstream call was made.
-/

namespace NpiProxy

/-- A parsed JSON document: the possible results of Python `json` decoding
an upstream body (`response.json()` in `main.py`).  JSON `null` decodes to
Python `None`; both are `JValue.null` here.  Numbers are modelled with `Int`
(the claims never depend on fractional values, only on a number's type and
truthiness). -/
inductive JValue where
  | null : JValue
  | bool : Bool → JValue
  | num : Int → JValue
  | str : String → JValue
  | arr : List JValue → JValue
  | obj : List (String × JValue) → JValue
deriving Repr

/-- Python exceptions the handler body can raise on a decoded document. -/
inductive PyError where
  | attributeError
  | typeError
  | keyError
  | indexError
  | jsonDecodeError
deriving Repr, DecidableEq

/-- Python truthiness (`bool(x)`) on a decoded JSON value: `None`, `False`,
`0`, `""`, `[]` and `{}` are falsy, everything else truthy.  Used by
`main.py` in `if not data.get("results")` and in `basic.get("status") or ""`. -/
def truthy : JValue → Bool
  | .null => false
  | .bool b => b
  | .num n => n != 0
  | .str s => !s.data.isEmpty
  | .arr xs => !xs.isEmpty
  | .obj fs => !fs.isEmpty

/-- Python `x.get(k)`: on a `dict` returns the value, `None` when absent;
on any other decoded value `.get` does not exist and an `AttributeError`
is raised. -/
def dictGet : JValue → String → Except PyError JValue
  | .obj fs, k => .ok ((List.lookup k fs).getD .null)
  | _, _ => .error .attributeError

/-- Python `x.get(k, d)`: as `dictGet` but with explicit default `d`. -/
def dictGetD : JValue → String → JValue → Except PyError JValue
  | .obj fs, k, d => .ok ((List.lookup k fs).getD d)
  | _, _, _ => .error .attributeError

/-- Python `x[0]` on a decoded JSON value (`data["results"][0]` in
`main.py`): list indexing; string indexing yields the first character as a
one-character string; a `dict` has no integer key `0` (JSON keys are
strings) so raises `KeyError`; other values are not subscriptable. -/
def index0 : JValue → Except PyError JValue
  | .arr (x :: _) => .ok x
  | .arr [] => .error .indexError
  | .str s =>
    match s.data with
    | [] => .error .indexError
    | c :: _ => .ok (.str (String.mk [c]))
  | .obj _ => .error .keyError
  | _ => .error .typeError

/-- Python `s.upper()` on a string.  Lean's `Char.toUpper` uppercases the
ASCII range only, while Python uppercases per Unicode; the two agree on
every predicate the handler evaluates (equality of the result with `"A"`:
the only one-character strings whose Python uppercase is `"A"` are `"a"`
and `"A"`, both ASCII, and no longer string uppercases to `"A"`). -/
def pyUpper (s : String) : String := String.mk (s.data.map Char.toUpper)

/-- Python `(v or "").upper()` (line `status = (basic.get("status") or
"").upper()` in `main.py`): a falsy `v` is replaced by `""`; `.upper()`
exists only on strings, so a truthy non-string raises `AttributeError`. -/
def orEmptyUpper (v : JValue) : Except PyError String :=
  match (if truthy v then v else .str "") with
  | .str s => .ok (pyUpper s)
  | _ => .error .attributeError

/-- The result shape built by `check_npi` from the upstream document,
before JSON serialisation.  `etype`, `fn`, `ln` are the raw decoded values
taken from the document (`entry.get("enumeration_type", "")`,
`basic.get("first_name")`, `basic.get("last_name")`), so they may be any
`JValue`, with `JValue.null` standing for Python `None`. -/
inductive LookupResult where
  | notFound (number : String)
  | inactive (number : String)
  | found (number : String) (etype fn ln : JValue)
deriving Repr

/-- The JSON body `check_npi` returns for each outcome, with the key order
of the dict literals in `main.py`. -/
def LookupResult.toJson : LookupResult → JValue
  | .notFound number =>
    .obj [("ok", .bool false), ("reason", .str "not_found"), ("number", .str number)]
  | .inactive number =>
    .obj [("ok", .bool false), ("reason", .str "inactive"), ("number", .str number)]
  | .found number etype fn ln =>
    .obj [("ok", .bool true), ("number", .str number), ("type", etype),
          ("first_name", fn), ("last_name", ln)]

/-- The part of the mapper operating on `entry = data["results"][0]`
(`main.py` lines 114–127):

    entry = data["results"][0]
    basic = entry.get("basic", {})
    status = (basic.get("status") or "").upper()
    type_ = entry.get("enumeration_type", "")
    if status != "A":
        return {"ok": False, "reason": "inactive", "number": number}
    return {"ok": True, "number": number, "type": type_,
            "first_name": basic.get("first_name"),
            "last_name": basic.get("last_name")}

Each dynamic operation is sequenced in source order, so the first Python
exception raised is the one recorded. -/
def mapEntry (number : String) (entry : JValue) : Except PyError LookupResult :=
  match dictGetD entry "basic" (.obj []) with
  | .error e => .error e
  | .ok basic =>
    match dictGet basic "status" with
    | .error e => .error e
    | .ok statusV =>
      match orEmptyUpper statusV with
      | .error e => .error e
      | .ok status =>
        match dictGetD entry "enumeration_type" (.str "") with
        | .error e => .error e
        | .ok etype =>
          if status != "A" then .ok (.inactive number)
          else
            match dictGet basic "first_name" with
            | .error e => .error e
            | .ok fn =>
              match dictGet basic "last_name" with
              | .error e => .error e
              | .ok ln => .ok (.found number etype fn ln)

/-- The response mapper (`main.py` lines 111–127): on the decoded document
`data`,

    if not data.get("results"):
        return {"ok": False, "reason": "not_found", "number": number}
    entry = data["results"][0]
    ...

`data["results"]` re-reads the same key `data.get("results")` returned, so
the value is reused here. -/
def mapResponse (number : String) (data : JValue) : Except PyError LookupResult :=
  match dictGet data "results" with
  | .error e => .error e
  | .ok results =>
    if !truthy results then .ok (.notFound number)
    else
      match index0 results with
      | .error e => .error e
      | .ok entry => mapEntry number entry

/-- Python `c.isdigit()` at the level of a single character.  Python's
`str.isdigit` accepts every character of Unicode numeric type Digit or
Decimal, a strict superset of the ASCII digits: the embedding lists the
ASCII digits plus representative non-ASCII members of that table
(superscript one/two/three, Arabic-Indic and extended Arabic-Indic digits,
Devanagari digits, fullwidth digits).  Python's table covers further
scripts; none is needed by the claims. -/
def pyCharIsDigit (c : Char) : Bool :=
  c.isDigit
  || c.toNat == 0xB9 || c.toNat == 0xB2 || c.toNat == 0xB3
  || (0x660 ≤ c.toNat && c.toNat ≤ 0x669)
  || (0x6F0 ≤ c.toNat && c.toNat ≤ 0x6F9)
  || (0x966 ≤ c.toNat && c.toNat ≤ 0x96F)
  || (0xFF10 ≤ c.toNat && c.toNat ≤ 0xFF19)

/-- Python `s.isdigit()`: true iff the string is non-empty and all its
characters are digits (`number.isdigit()` in `main.py` line 92). -/
def pyIsDigit (s : String) : Bool :=
  !s.data.isEmpty && s.data.all pyCharIsDigit

/-- The rate limit configured on the endpoint by the decorator
`@limiter.limit("10/minute")` in `main.py`. -/
def rateLimitPerMinute : Nat := 10

/-- Modelled from the spec: the counting semantics of the `slowapi`
`Limiter` (library code, not in `src/`).  Per the spec's rate-limiter
policy ("10 requests per rolling minute, keyed by client network address";
"Given 11 requests from the same client key within 60 seconds, the 11th
returns 429"), a request is rejected when the client key has already made
at least `rateLimitPerMinute` requests within the current window. -/
def rateLimitExceeded (requestsInWindow : Nat) : Bool :=
  rateLimitPerMinute ≤ requestsInWindow

/-- The `httpx.Limits` configuration: `main.py` line 83 is
`HTTP_LIMITS = httpx.Limits(max_keepalive_connections=5, max_connections=10)`. -/
structure HttpxLimits where
  max_keepalive_connections : Nat
  max_connections : Nat
deriving Repr, DecidableEq

def HTTP_LIMITS : HttpxLimits := { max_keepalive_connections := 5, max_connections := 10 }

/-- The overall request timeout in seconds: `HTTP_TIMEOUT = httpx.Timeout(5.0)`. -/
def HTTP_TIMEOUT_SECONDS : Nat := 5

/-- Where the `httpx.AsyncClient` (and hence its connection pool) lives. -/
inductive ClientScope where
  | perRequest
  | processWide
deriving Repr, DecidableEq

/-- In `main.py` line 98 the client is constructed inside the body of
`check_npi` itself — `async with httpx.AsyncClient(timeout=HTTP_TIMEOUT,
limits=HTTP_LIMITS) as client:` — so a fresh client and connection pool is
created (and closed) per request; only the `HTTP_LIMITS`/`HTTP_TIMEOUT`
configuration objects are module-level. -/
def npiClientScope : ClientScope := .perRequest

/-- What the upstream registry does with the single GET request: a
transport-level failure (DNS, refused connection, timeout — everything
`httpx.RequestError` covers), or an HTTP response with a status code and a
body; `none` stands for a body that is not valid JSON, `some data` for a
body decoding to `data`. -/
inductive UpstreamReply where
  | transportError
  | httpResponse (status : Nat) (body : Option JValue)

/-- The log lines `check_npi` can emit (`logger.error(...)` calls): each
records the triggering number, and for the HTTP-status case the upstream
status code (the cause included in the message). -/
inductive LogEvent where
  | connectionError (number : String)
  | apiError (number : String) (status : Nat)
deriving Repr, DecidableEq

/-- The HTTP response the caller sees: a JSON-body response with a status
code; an `HTTPException` raised by the handler (FastAPI turns it into a
response with body `{"detail": detail}`); or a Python exception escaping
the handler uncaught (FastAPI's outermost middleware then produces a bare
500 with no detail from this handler, and none of the handler's logging
runs). -/
inductive Response where
  | json (status : Nat) (body : JValue)
  | httpException (status : Nat) (detail : String)
  | unhandled (e : PyError)

/-- The observable effects of one `check_npi` invocation. -/
structure Outcome where
  response : Response
  log : List LogEvent
  upstreamCalled : Bool
  /-- The `httpx.Limits` of the `AsyncClient` newly constructed by this
  request, when the request reaches the upstream-call section. -/
  clientLimits : Option HttpxLimits

/-- The endpoint `check_npi` (`main.py` lines 87–127).  `limited` is the
rate-limiter's decision for this request (the `@limiter.limit` decorator
runs before the body; on rejection the `RateLimitExceeded` handler of
lines 71–76 builds the response), `number` the raw query parameter,
`reply` the upstream registry's behaviour.

    if not number.isdigit() or len(number) != 10:
        raise HTTPException(status_code=400, detail="Invalid NPI number format")
    try:
        async with httpx.AsyncClient(timeout=HTTP_TIMEOUT, limits=HTTP_LIMITS) as client:
            response = await client.get(NPPES_API, params=params)
            response.raise_for_status()
            data = response.json()
    except httpx.RequestError as e:
        logger.error(f"Connection error while checking NPI {number}: {e}")
        raise HTTPException(status_code=500, detail="NPPES API request failed")
    except httpx.HTTPStatusError as e:
        logger.error(f"NPPES API returned error for NPI {number}: {e.response.status_code}")
        raise HTTPException(status_code=500, detail="NPPES API returned error")
    ...

`response.raise_for_status()` raises `httpx.HTTPStatusError` exactly when
the status is not 2xx.  `response.json()` raises `json.JSONDecodeError` on
a malformed body; that exception is neither an `httpx.RequestError` nor an
`httpx.HTTPStatusError`, so neither `except` clause catches it and it
escapes the handler. -/
def check_npi (limited : Bool) (number : String) (reply : UpstreamReply) : Outcome :=
  if limited then
    { response := .json 429 (.obj [("ok", .bool false),
        ("reason", .str "too_many_requests"), ("detail", .str "Rate limit exceeded")]),
      log := [], upstreamCalled := false, clientLimits := none }
  else if !pyIsDigit number || number.length != 10 then
    { response := .httpException 400 "Invalid NPI number format",
      log := [], upstreamCalled := false, clientLimits := none }
  else
    match reply with
    | .transportError =>
      { response := .httpException 500 "NPPES API request failed",
        log := [.connectionError number], upstreamCalled := true,
        clientLimits := some HTTP_LIMITS }
    | .httpResponse status body =>
      if status < 200 || 300 ≤ status then
        { response := .httpException 500 "NPPES API returned error",
          log := [.apiError number status], upstreamCalled := true,
          clientLimits := some HTTP_LIMITS }
      else
        match body with
        | none =>
          { response := .unhandled .jsonDecodeError,
            log := [], upstreamCalled := true, clientLimits := some HTTP_LIMITS }
        | some data =>
          match mapResponse number data with
          | .ok r =>
            { response := .json 200 r.toJson,
              log := [], upstreamCalled := true, clientLimits := some HTTP_LIMITS }
          | .error e =>
            { response := .unhandled e,
              log := [], upstreamCalled := true, clientLimits := some HTTP_LIMITS }

/-! ## Spec-side definitions and concrete documents -/

/-- Spec-side definition, from the spec's words (for comparison with the
source's validation): the string matches `^[0-9]{10}$`, i.e. consists of
exactly 10 ASCII digit characters. -/
def matchesAsciiNpiRegex (s : String) : Bool :=
  s.length == 10 && s.data.all Char.isDigit

/-- Ten fullwidth digits U+FF11…U+FF19, U+FF10: every character is accepted
by Python `str.isdigit`, yet none is an ASCII digit. -/
def fullwidthTen : String := "１２３４５６７８９０"

/-- A document whose `results` array holds a number instead of an object:
`{"results": [5]}`. -/
def nonObjectEntryDoc : JValue := .obj [("results", .arr [.num 5])]

/-! ## Helper lemmas -/

/-- On a string value, `(v or "").upper()` never raises and returns the
uppercased string (an empty string is falsy, replaced by `""`, and
uppercases to itself). -/
theorem orEmptyUpper_str (s : String) : orEmptyUpper (.str s) = .ok (pyUpper s) := by
  cases s with
  | mk cs => cases cs with
    | nil => rfl
    | cons c cs => rfl

/-- A falsy status value is replaced by `""` before `.upper()`. -/
theorem orEmptyUpper_falsy (v : JValue) (h : truthy v = false) :
    orEmptyUpper v = .ok "" := by
  simp only [orEmptyUpper, h, Bool.false_eq_true, if_false]
  rfl

/-- A validated number makes the 400 guard of `check_npi` pass. -/
theorem validGuard (number : String) (h1 : pyIsDigit number = true)
    (h2 : number.length = 10) :
    (!pyIsDigit number || number.length != 10) = false := by
  simp [h1, h2]

/-! ## C1 — input validation -/

/-- C1 is false as stated: the code validates with Python `str.isdigit`
(`main.py` line 92), not with `^[0-9]{10}$`.  The ten-fullwidth-digit
string `fullwidthTen` matches no ASCII-digit regex, yet `isdigit` accepts
it, so validation succeeds, the upstream call is made, and (here, with an
upstream 200 and an empty document) the caller receives a 200 body — not
a 400 `ValidationError`. -/
theorem C1_counterexample :
    matchesAsciiNpiRegex fullwidthTen = false
    ∧ (check_npi false fullwidthTen (.httpResponse 200 (some (.obj [])))).upstreamCalled = true
    ∧ (check_npi false fullwidthTen (.httpResponse 200 (some (.obj [])))).response
        = .json 200 (LookupResult.notFound fullwidthTen).toJson := by
  refine ⟨by decide, rfl, rfl⟩

/-- C1 (amended): validation succeeds exactly on strings of length 10 all
of whose characters Python `str.isdigit` accepts — a superset of the
ASCII digits.  Every string that fails this test gets the 400
`"Invalid NPI number format"` response with no upstream call, and every
string of exactly 10 ASCII digits passes validation and reaches upstream;
but some strings not matching `^[0-9]{10}$` (non-ASCII digits, see
`C1_counterexample`) also pass. -/
theorem C1_validation (s t : String) (r r2 : UpstreamReply)
    (hs : ¬(pyIsDigit s = true ∧ s.length = 10))
    (ht : matchesAsciiNpiRegex t = true) :
    (check_npi false s r).response = .httpException 400 "Invalid NPI number format"
    ∧ (check_npi false s r).upstreamCalled = false
    ∧ (check_npi false t r2).upstreamCalled = true := by
  have hcond : (!pyIsDigit s || s.length != 10) = true := by
    by_cases h1 : pyIsDigit s = true
    · have h2 : s.length ≠ 10 := fun hl => hs ⟨h1, hl⟩
      simp [h1, h2]
    · simp at h1
      simp [h1]
  have hlen : t.length = 10 := by
    simp only [matchesAsciiNpiRegex, Bool.and_eq_true, beq_iff_eq] at ht
    exact ht.1
  have hdig : pyIsDigit t = true := by
    simp only [matchesAsciiNpiRegex, Bool.and_eq_true, beq_iff_eq,
      List.all_eq_true] at ht
    have hdl : t.data.length = 10 := hlen
    have hne : t.data.isEmpty = false := by
      cases hd : t.data with
      | nil => rw [hd] at hdl; exact absurd hdl (by decide)
      | cons a l => rfl
    simp only [pyIsDigit, Bool.and_eq_true, hne, Bool.not_false, List.all_eq_true]
    exact ⟨by trivial, fun c hc => by simp [pyCharIsDigit, ht.2 c hc]⟩
  have hcond2 : (!pyIsDigit t || t.length != 10) = false := validGuard t hdig hlen
  refine ⟨?_, ?_, ?_⟩
  · simp [check_npi, hcond]
  · simp [check_npi, hcond]
  · cases r2 with
    | transportError => simp [check_npi, hcond2]
    | httpResponse st body =>
      simp only [check_npi, Bool.false_eq_true, if_false, hcond2]
      split
      · rfl
      · cases body with
        | none => rfl
        | some data =>
          cases hm : mapResponse t data with
          | ok v => simp [hm]
          | error e => simp [hm]

/-- Witness for `C1_validation` at `s = "abc"`, `t = "1234567890"`. -/
theorem C1_validation_witness :
    (check_npi false "abc" .transportError).response
        = .httpException 400 "Invalid NPI number format"
    ∧ (check_npi false "abc" .transportError).upstreamCalled = false
    ∧ (check_npi false "1234567890" .transportError).upstreamCalled = true :=
  C1_validation "abc" "1234567890" .transportError .transportError
    (by decide) (by decide)

/-! ## C6 — rate limiting -/

/-- C6: once a client key has made at least `rateLimitPerMinute = 10`
requests in the window, the request is rejected before validation and
before the upstream call — for every `number` (valid or not) and every
upstream behaviour, the outcome is status 429 with body
`{ok: false, reason: "too_many_requests", detail: "Rate limit exceeded"}`,
no upstream call, no log line.  The window-counting semantics of the
`slowapi` limiter is modelled from the spec (`rateLimitExceeded`); the
limit `"10/minute"` and the 429 handler are from `main.py`. -/
theorem C6_rate_limit_short_circuit (n : Nat) (number : String) (reply : UpstreamReply)
    (h : rateLimitPerMinute ≤ n) :
    check_npi (rateLimitExceeded n) number reply =
      { response := .json 429 (.obj [("ok", .bool false),
          ("reason", .str "too_many_requests"), ("detail", .str "Rate limit exceeded")]),
        log := [], upstreamCalled := false, clientLimits := none } := by
  have hx : rateLimitExceeded n = true := by
    simp [rateLimitExceeded, h]
  rw [hx]
  rfl

/-- Witness for `C6_rate_limit_short_circuit`: the 11th request in the
window (10 already made), here with an invalid number, is rejected. -/
theorem C6_witness :
    check_npi (rateLimitExceeded 10) "abc" .transportError =
      { response := .json 429 (.obj [("ok", .bool false),
          ("reason", .str "too_many_requests"), ("detail", .str "Rate limit exceeded")]),
        log := [], upstreamCalled := false, clientLimits := none } :=
  C6_rate_limit_short_circuit 10 "abc" .transportError (by decide)

/-! ## C9 — connection pool -/

/-- C9 is false as stated: the claim's "shared process-wide across all
requests" does not hold.  In `main.py` line 98 the `httpx.AsyncClient` is
constructed inside the body of `check_npi` (`async with httpx.AsyncClient(...)`),
so each request gets a fresh client and connection pool; `npiClientScope`
records this structural fact of the source. -/
theorem C9_counterexample :
    npiClientScope = ClientScope.perRequest
    ∧ decide (npiClientScope = ClientScope.processWide) = false := by
  exact ⟨rfl, rfl⟩

/-- C9 (amended): every request that reaches the upstream-call section
constructs its own `AsyncClient`, configured with the module-level bounded
limits (max 10 total connections, max 5 keep-alive); the pool is
per-request, not shared process-wide. -/
theorem C9_client_per_request (number : String) (reply : UpstreamReply)
    (hn : pyIsDigit number = true ∧ number.length = 10) :
    (check_npi false number reply).clientLimits
        = some { max_keepalive_connections := 5, max_connections := 10 }
    ∧ npiClientScope = ClientScope.perRequest := by
  have hcond : (!pyIsDigit number || number.length != 10) = false :=
    validGuard number hn.1 hn.2
  refine ⟨?_, rfl⟩
  cases reply with
  | transportError => simp [check_npi, hcond, HTTP_LIMITS]
  | httpResponse st body =>
    simp only [check_npi, Bool.false_eq_true, if_false, hcond]
    split
    · rfl
    · cases body with
      | none => rfl
      | some data =>
        cases hm : mapResponse number data with
        | ok v => simp [hm, HTTP_LIMITS]
        | error e => simp [hm, HTTP_LIMITS]

/-- Witness for `C9_client_per_request` at `number = "1234567890"`. -/
theorem C9_witness :
    (check_npi false "1234567890" .transportError).clientLimits
        = some { max_keepalive_connections := 5, max_connections := 10 }
    ∧ npiClientScope = ClientScope.perRequest :=
  C9_client_per_request "1234567890" .transportError (by decide)

/-! ## C4 — upstream failure handling -/

/-- C4 is false as stated: a 2xx upstream reply with a malformed
(non-JSON) body makes `response.json()` raise `json.JSONDecodeError`,
which is neither an `httpx.RequestError` nor an `httpx.HTTPStatusError`,
so neither `except` clause of `main.py` catches it — the exception
escapes the handler uncaught (`Response.unhandled`) and nothing is logged
with the triggering number, instead of being converted at this boundary
to the generic 500 `HTTPException` shape. -/
theorem C4_counterexample :
    (check_npi false "1234567890" (.httpResponse 200 none)).response
        = .unhandled .jsonDecodeError
    ∧ (check_npi false "1234567890" (.httpResponse 200 none)).log = [] := by
  exact ⟨rfl, rfl⟩

/-- C4 (amended): transport failures and non-2xx upstream statuses are
caught at the boundary, logged once with the triggering number (and the
status code as cause), and converted to the generic 500 `HTTPException`
with a fixed detail string leaking no internal information; but a
malformed/non-JSON body on a 2xx reply is NOT under the same handling —
the decode error escapes the handler uncaught and unlogged. -/
theorem C4_upstream_failure_handling (number : String) (st st2 : Nat) (body : Option JValue)
    (hn : pyIsDigit number = true ∧ number.length = 10)
    (hst : st < 200 ∨ 300 ≤ st)
    (hst2 : 200 ≤ st2 ∧ st2 < 300) :
    check_npi false number .transportError =
      { response := .httpException 500 "NPPES API request failed",
        log := [.connectionError number], upstreamCalled := true,
        clientLimits := some HTTP_LIMITS }
    ∧ check_npi false number (.httpResponse st body) =
      { response := .httpException 500 "NPPES API returned error",
        log := [.apiError number st], upstreamCalled := true,
        clientLimits := some HTTP_LIMITS }
    ∧ check_npi false number (.httpResponse st2 none) =
      { response := .unhandled .jsonDecodeError, log := [], upstreamCalled := true,
        clientLimits := some HTTP_LIMITS } := by
  have hcond : (!pyIsDigit number || number.length != 10) = false :=
    validGuard number hn.1 hn.2
  have h1 : (decide (st < 200) || decide (300 ≤ st)) = true := by
    rcases hst with h | h <;> simp [h]
  have h2 : (decide (st2 < 200) || decide (300 ≤ st2)) = false := by
    have := hst2.1; have := hst2.2
    simp; omega
  refine ⟨?_, ?_, ?_⟩
  · simp [check_npi, hcond]
  · simp [check_npi, hcond, h1]
  · simp [check_npi, hcond, h2]

/-- Witness for `C4_upstream_failure_handling` at `number = "1234567890"`,
a 404 upstream status, and a malformed body on a 200 reply. -/
theorem C4_witness :
    check_npi false "1234567890" .transportError =
      { response := .httpException 500 "NPPES API request failed",
        log := [.connectionError "1234567890"], upstreamCalled := true,
        clientLimits := some HTTP_LIMITS }
    ∧ check_npi false "1234567890" (.httpResponse 404 (some (.obj []))) =
      { response := .httpException 500 "NPPES API returned error",
        log := [.apiError "1234567890" 404], upstreamCalled := true,
        clientLimits := some HTTP_LIMITS }
    ∧ check_npi false "1234567890" (.httpResponse 200 none) =
      { response := .unhandled .jsonDecodeError, log := [], upstreamCalled := true,
        clientLimits := some HTTP_LIMITS } :=
  C4_upstream_failure_handling "1234567890" 404 200 (some (.obj []))
    (by decide) (by decide) (by decide)

/-! ## C3 — empty or absent results -/

/-- C3: when the decoded document's `results` key is absent or holds an
empty array, the handler returns status 200 with body
`{"ok": false, "reason": "not_found", "number": number}` carrying the
queried number. -/
theorem C3_not_found (number : String) (st : Nat) (dfs : List (String × JValue))
    (hn : pyIsDigit number = true ∧ number.length = 10)
    (hst : 200 ≤ st ∧ st < 300)
    (hr : List.lookup "results" dfs = none ∨ List.lookup "results" dfs = some (.arr [])) :
    check_npi false number (.httpResponse st (some (.obj dfs))) =
      { response := .json 200 (.obj [("ok", .bool false), ("reason", .str "not_found"),
          ("number", .str number)]),
        log := [], upstreamCalled := true, clientLimits := some HTTP_LIMITS } := by
  have hcond : (!pyIsDigit number || number.length != 10) = false :=
    validGuard number hn.1 hn.2
  have hstc : (decide (st < 200) || decide (300 ≤ st)) = false := by
    have := hst.1; have := hst.2
    simp; omega
  have hmap : mapResponse number (.obj dfs) = .ok (.notFound number) := by
    rcases hr with h | h <;> simp [mapResponse, dictGet, h, truthy]
  simp [check_npi, hcond, hstc, hmap, LookupResult.toJson]

/-- Witness for `C3_not_found`: an upstream 200 whose document lacks the
`results` key. -/
theorem C3_witness :
    check_npi false "1234567890" (.httpResponse 200 (some (.obj []))) =
      { response := .json 200 (.obj [("ok", .bool false), ("reason", .str "not_found"),
          ("number", .str "1234567890")]),
        log := [], upstreamCalled := true, clientLimits := some HTTP_LIMITS } :=
  C3_not_found "1234567890" 200 [] (by decide) (by decide) (Or.inl rfl)

/-! ## Mapper-level helpers -/

/-- A document whose `results` key holds a non-empty array is mapped by
mapping its first element. -/
theorem mapResponse_cons (number : String) (dfs : List (String × JValue))
    (e : JValue) (rest : List JValue)
    (hr : List.lookup "results" dfs = some (.arr (e :: rest))) :
    mapResponse number (.obj dfs) = mapEntry number e := by
  simp [mapResponse, dictGet, hr, truthy, index0]

/-- Unfolding `mapEntry` on an object entry whose `basic` field is an
object containing a string-valued or defaulted status. -/
theorem mapEntry_obj_status (number : String) (efs bfs : List (String × JValue))
    (hb : (List.lookup "basic" efs).getD (.obj []) = .obj bfs) (s : String)
    (hs : orEmptyUpper ((List.lookup "status" bfs).getD .null) = .ok s) :
    mapEntry number (.obj efs) =
      if s != "A" then .ok (.inactive number)
      else .ok (.found number ((List.lookup "enumeration_type" efs).getD (.str ""))
        ((List.lookup "first_name" bfs).getD .null)
        ((List.lookup "last_name" bfs).getD .null)) := by
  simp only [mapEntry, dictGetD, hb, dictGet, hs]

/-! ## C2 — status branch of the mapper -/

/-- C2: for a document whose non-empty `results` array starts with an
object entry whose `basic` object holds a string status `s`, the mapper
compares the Python-uppercased `s` with `"A"`: if it differs the result is
`Inactive` (serialised as `{ok: false, reason: "inactive", number}`), and
if `s` is `"A"` or `"a"` the result is `Found` (serialised with
`ok: true`) carrying `enumeration_type`, `basic.first_name` and
`basic.last_name` copied from that first entry (with the source's
defaults when absent). -/
theorem C2_status_branch (number s : String) (dfs efs bfs : List (String × JValue))
    (rest : List JValue)
    (hr : List.lookup "results" dfs = some (.arr (.obj efs :: rest)))
    (hb : List.lookup "basic" efs = some (.obj bfs))
    (hs : List.lookup "status" bfs = some (.str s)) :
    (pyUpper s ≠ "A" → mapResponse number (.obj dfs) = .ok (.inactive number))
    ∧ (s = "A" ∨ s = "a" → mapResponse number (.obj dfs) =
        .ok (.found number ((List.lookup "enumeration_type" efs).getD (.str ""))
          ((List.lookup "first_name" bfs).getD .null)
          ((List.lookup "last_name" bfs).getD .null))) := by
  have hup : orEmptyUpper ((List.lookup "status" bfs).getD .null) = .ok (pyUpper s) := by
    rw [hs, Option.getD_some, orEmptyUpper_str]
  have hm := (mapResponse_cons number dfs (.obj efs) rest hr).trans
    (mapEntry_obj_status number efs bfs (by rw [hb]; rfl) (pyUpper s) hup)
  constructor
  · intro hne
    rw [hm]
    simp [hne]
  · intro hA
    rw [hm]
    rcases hA with h | h <;> subst h <;> rfl

/-- Witness for `C2_status_branch` with status `"a"`: the mapper accepts
the lowercase status and copies the (absent, hence defaulted) fields. -/
theorem C2_witness :
    mapResponse "1234567890"
        (.obj [("results", .arr [.obj [("basic", .obj [("status", .str "a")])]])])
      = .ok (.found "1234567890" (.str "") .null .null) :=
  (C2_status_branch "1234567890" "a"
    [("results", .arr [.obj [("basic", .obj [("status", .str "a")])]])]
    [("basic", .obj [("status", .str "a")])]
    [("status", .str "a")]
    [] rfl rfl rfl).2 (Or.inr rfl)

/-! ## C5 — Found carries optional fields -/

/-- C5: on the `Found` path (status `"A"`), the result carries
`enumeration_type` defaulted to the empty string when the field is absent
from the entry (`entry.get("enumeration_type", "")`), and
`basic.first_name` / `basic.last_name` passed through with `None` when
absent (`basic.get(...)`), as a successful `.ok` outcome — absence of any
of these fields is never an error. -/
theorem C5_found_optional_fields (number : String) (dfs efs bfs : List (String × JValue))
    (rest : List JValue)
    (hr : List.lookup "results" dfs = some (.arr (.obj efs :: rest)))
    (hb : List.lookup "basic" efs = some (.obj bfs))
    (hs : List.lookup "status" bfs = some (.str "A")) :
    mapResponse number (.obj dfs) =
      .ok (.found number ((List.lookup "enumeration_type" efs).getD (.str ""))
        ((List.lookup "first_name" bfs).getD .null)
        ((List.lookup "last_name" bfs).getD .null)) := by
  have hup : orEmptyUpper ((List.lookup "status" bfs).getD .null) = .ok (pyUpper "A") := by
    rw [hs, Option.getD_some, orEmptyUpper_str]
  rw [mapResponse_cons number dfs (.obj efs) rest hr,
    mapEntry_obj_status number efs bfs (by rw [hb]; rfl) (pyUpper "A") hup]
  rfl

/-- Witness for `C5_found_optional_fields`: `enumeration_type`,
`first_name` and `last_name` all absent upstream — the mapped result is
`Found` with empty-string type and null names, not an error. -/
theorem C5_witness :
    mapResponse "9998887776"
        (.obj [("results",
            .arr [.obj [("basic", .obj [("status", .str "A"), ("extra", .num 1)])]]),
          ("result_count", .num 1)])
      = .ok (.found "9998887776" (.str "") .null .null) :=
  C5_found_optional_fields "9998887776"
    [("results", .arr [.obj [("basic", .obj [("status", .str "A"), ("extra", .num 1)])]]),
      ("result_count", .num 1)]
    [("basic", .obj [("status", .str "A"), ("extra", .num 1)])]
    [("status", .str "A"), ("extra", .num 1)]
    [] rfl rfl rfl

/-! ## C7 — only the first result matters -/

/-- C7: the mapper reads nothing of the `results` array beyond its first
element — two documents with non-empty `results` arrays sharing the same
first element map to the same result, whatever else either document or
array contains. -/
theorem C7_first_result_only (number : String) (f1 f2 : List (String × JValue))
    (e : JValue) (xs ys : List JValue)
    (hr1 : List.lookup "results" f1 = some (.arr (e :: xs)))
    (hr2 : List.lookup "results" f2 = some (.arr (e :: ys))) :
    mapResponse number (.obj f1) = mapResponse number (.obj f2) := by
  rw [mapResponse_cons number f1 e xs hr1, mapResponse_cons number f2 e ys hr2]

/-- Witness for `C7_first_result_only`: a one-element and a three-element
`results` array with the same head (and different surrounding fields) map
identically. -/
theorem C7_witness :
    mapResponse "1112223334" (.obj [("results", .arr [.obj []])]) =
      mapResponse "1112223334"
        (.obj [("results", .arr [.obj [], .obj [("basic", .obj [("status", .str "A")])],
            .num 7]),
          ("result_count", .num 3)]) :=
  C7_first_result_only "1112223334"
    [("results", .arr [.obj []])]
    [("results", .arr [.obj [], .obj [("basic", .obj [("status", .str "A")])], .num 7]),
      ("result_count", .num 3)]
    (.obj []) [] [.obj [("basic", .obj [("status", .str "A")])], .num 7] rfl rfl

/-! ## C10 — absent or null status -/

/-- C10: with a non-empty `results` array whose first entry's `basic`
object has no `status` key, or has it bound to JSON `null`, the falsy
status is replaced by `""` (`basic.get("status") or ""`), which uppercases
to `""` ≠ `"A"`, so the mapper returns `Inactive` (serialised as
`{ok: false, reason: "inactive", number}`) — not an error. -/
theorem C10_absent_or_null_status (number : String) (dfs efs bfs : List (String × JValue))
    (rest : List JValue)
    (hr : List.lookup "results" dfs = some (.arr (.obj efs :: rest)))
    (hb : List.lookup "basic" efs = some (.obj bfs))
    (hs : List.lookup "status" bfs = none ∨ List.lookup "status" bfs = some .null) :
    mapResponse number (.obj dfs) = .ok (.inactive number) := by
  have hup : orEmptyUpper ((List.lookup "status" bfs).getD .null) = .ok "" := by
    rcases hs with h | h <;> rw [h] <;> rfl
  rw [mapResponse_cons number dfs (.obj efs) rest hr,
    mapEntry_obj_status number efs bfs (by rw [hb]; rfl) "" hup]
  rfl

/-- Witness for `C10_absent_or_null_status`: status bound to `null`. -/
theorem C10_witness :
    mapResponse "5556667778"
        (.obj [("results", .arr [.obj [("basic", .obj [("status", .null)])]])])
      = .ok (.inactive "5556667778") :=
  C10_absent_or_null_status "5556667778"
    [("results", .arr [.obj [("basic", .obj [("status", .null)])]])]
    [("basic", .obj [("status", .null)])]
    [("status", .null)]
    [] rfl rfl (Or.inr rfl)

/-! ## C8 — totality of the mapper -/

/-- A status value the handler's `(status or "").upper()` survives: any
string, or any falsy value (replaced by `""`); a truthy non-string raises
`AttributeError`. -/
def statusOk (v : JValue) : Bool :=
  match v with
  | .str _ => true
  | v => !truthy v

/-- A `results` element the handler's entry code survives: an object (of
any fields) whose `basic` field — defaulted to `{}` when absent — is an
object with an Ok-shaped status. -/
def entryOk (entry : JValue) : Bool :=
  match entry with
  | .obj efs =>
    match (List.lookup "basic" efs).getD (.obj []) with
    | .obj bfs => statusOk ((List.lookup "status" bfs).getD .null)
    | _ => false
  | _ => false

/-- A decoded document the whole mapper survives: a JSON object whose
`results` value (defaulted to `None` when absent) is either falsy, or an
array whose first element is `entryOk`. -/
def wellShaped (data : JValue) : Bool :=
  match data with
  | .obj dfs =>
    match (List.lookup "results" dfs).getD .null with
    | .arr [] => true
    | .arr (e :: _) => entryOk e
    | v => !truthy v
  | _ => false

/-- An Ok-shaped status survives `(status or "").upper()`. -/
theorem statusOk_orEmptyUpper (v : JValue) (h : statusOk v = true) :
    ∃ s, orEmptyUpper v = .ok s := by
  cases v with
  | str s => exact ⟨pyUpper s, orEmptyUpper_str s⟩
  | null => exact ⟨"", orEmptyUpper_falsy .null rfl⟩
  | bool b =>
    have hb : b = false := by simpa [statusOk, truthy] using h
    exact ⟨"", orEmptyUpper_falsy (.bool b) (by simp [truthy, hb])⟩
  | num n =>
    have hn : n = 0 := by simpa [statusOk, truthy] using h
    exact ⟨"", orEmptyUpper_falsy (.num n) (by simp [truthy, hn])⟩
  | arr xs =>
    have hx : xs = [] := by simpa [statusOk, truthy] using h
    exact ⟨"", orEmptyUpper_falsy (.arr xs) (by simp [truthy, hx])⟩
  | obj fs =>
    have hf : fs = [] := by simpa [statusOk, truthy] using h
    exact ⟨"", orEmptyUpper_falsy (.obj fs) (by simp [truthy, hf])⟩

/-- An Ok-shaped entry survives the whole entry section of the mapper. -/
theorem entryOk_mapEntry (number : String) (e : JValue) (h : entryOk e = true) :
    ∃ r, mapEntry number e = .ok r := by
  cases e with
  | obj efs =>
    simp only [entryOk] at h
    cases hb : (List.lookup "basic" efs).getD (.obj []) with
    | obj bfs =>
      rw [hb] at h
      obtain ⟨s, hsu⟩ := statusOk_orEmptyUpper _ h
      rw [mapEntry_obj_status number efs bfs hb s hsu]
      by_cases hA : (s != "A") = true
      · exact ⟨.inactive number, by rw [if_pos hA]⟩
      · exact ⟨_, by rw [if_neg (by simpa using hA)]⟩
    | null => rw [hb] at h; exact absurd h (by simp)
    | bool b => rw [hb] at h; exact absurd h (by simp)
    | num n => rw [hb] at h; exact absurd h (by simp)
    | str s => rw [hb] at h; exact absurd h (by simp)
    | arr xs => rw [hb] at h; exact absurd h (by simp)
  | null => exact absurd h (by simp [entryOk])
  | bool b => exact absurd h (by simp [entryOk])
  | num n => exact absurd h (by simp [entryOk])
  | str s => exact absurd h (by simp [entryOk])
  | arr xs => exact absurd h (by simp [entryOk])

/-- C8 is false as stated: the mapper is not total on arbitrary decoded
documents.  On `{"results": [5]}` the first element is the number `5`;
`entry.get("basic", {})` does not exist on an `int`, so the handler raises
an uncaught `AttributeError` instead of producing a `LookupResult`. -/
theorem C8_counterexample :
    mapResponse "1234567890" nonObjectEntryDoc = .error .attributeError := rfl

/-- C8 (amended): the mapper never crashes on a document whose used parts
have the expected types — a JSON object with `results` absent, falsy or an
array whose first element is an object with an object (or absent) `basic`
and a string (or falsy/absent) status — regardless of extra fields or
missing fields anywhere; on such documents it always produces a
`LookupResult`.  Documents violating those type expectations (e.g. a
numeric `results` element, `C8_counterexample`) raise uncaught Python
exceptions. -/
theorem C8_total_on_expected_shapes (number : String) (data : JValue)
    (h : wellShaped data = true) :
    ∃ r : LookupResult, mapResponse number data = .ok r := by
  cases data with
  | obj dfs =>
    simp only [wellShaped] at h
    have hget : dictGet (.obj dfs) "results" =
        .ok ((List.lookup "results" dfs).getD .null) := rfl
    cases hrv : (List.lookup "results" dfs).getD .null with
    | arr xs =>
      cases xs with
      | nil =>
        exact ⟨.notFound number, by simp [mapResponse, dictGet, hrv, truthy]⟩
      | cons e es =>
        rw [hrv] at h
        obtain ⟨r, hr⟩ := entryOk_mapEntry number e h
        refine ⟨r, ?_⟩
        rw [show mapResponse number (.obj dfs) = mapEntry number e from ?_, hr]
        simp [mapResponse, dictGet, hrv, truthy, index0]
    | null => exact ⟨.notFound number, by simp [mapResponse, dictGet, hrv, truthy]⟩
    | bool b =>
      rw [hrv] at h
      simp only [truthy] at h
      have hb : b = false := by simpa using h
      subst hb
      exact ⟨.notFound number, by simp [mapResponse, dictGet, hrv, truthy]⟩
    | num n =>
      rw [hrv] at h
      have hn : n = 0 := by simpa [truthy] using h
      subst hn
      exact ⟨.notFound number, by simp [mapResponse, dictGet, hrv, truthy]⟩
    | str s =>
      rw [hrv] at h
      have hd : s.data = [] := by simpa [truthy] using h
      exact ⟨.notFound number, by simp [mapResponse, dictGet, hrv, truthy, hd]⟩
    | obj fs =>
      rw [hrv] at h
      simp only [truthy] at h
      have hf : fs = [] := by simpa using h
      subst hf
      exact ⟨.notFound number, by simp [mapResponse, dictGet, hrv, truthy]⟩
  | null => exact absurd h (by simp [wellShaped])
  | bool b => exact absurd h (by simp [wellShaped])
  | num n => exact absurd h (by simp [wellShaped])
  | str s => exact absurd h (by simp [wellShaped])
  | arr xs => exact absurd h (by simp [wellShaped])

/-- Witness for `C8_total_on_expected_shapes`: a document with extra
top-level fields, an extra entry field, no `basic` object, producing a
result (here `Inactive`, since the defaulted status is falsy). -/
theorem C8_witness :
    ∃ r : LookupResult,
      mapResponse "4443332221"
        (.obj [("result_count", .num 1),
          ("results", .arr [.obj [("taxonomies", .arr [])]]),
          ("extra", .str "x")])
      = .ok r :=
  C8_total_on_expected_shapes "4443332221"
    (.obj [("result_count", .num 1),
      ("results", .arr [.obj [("taxonomies", .arr [])]]),
      ("extra", .str "x")])
    rfl

end NpiProxy
